import Mathlib

/-
Shallow embedding of the request pane of the openapi-tui terminal viewer
(src/panes/request.rs), together with executable models of the external
collaborators it consumes: the shared navigation state, the parsed
specification document with its reference-resolution primitives, and the
serialization plus syntax-highlighting pipeline.
-/

set_option maxRecDepth 10000

namespace OpenapiTui

/-- Terminal color model for the part of the ratatui styling the pane uses:
the code only ever writes the Reset color into style fields. -/
inductive Color where
  | Reset : Color
  | Indexed : Nat → Color
  deriving DecidableEq, Repr

/-- Subset of the ratatui Style record that the pane manipulates:
foreground, background, underline color and the DIM modifier. -/
structure Style where
  fg : Option Color := none
  bg : Option Color := none
  underlineColor : Option Color := none
  dim : Bool := false
  deriving DecidableEq, Repr

/-- Modelled from the spec: a resolved schema value from the parsed
specification document (the external oas3 collaborator). The pane treats a
schema as opaque serializable data, so only a small record is kept. -/
structure Schema where
  schema_type : Option String := none
  title : Option String := none
  deriving DecidableEq, Repr

/-- Modelled from the spec: a document value that is either an inline object
or a named reference to a reusable component elsewhere in the document. -/
inductive ObjectOrReference (α : Type) where
  | Object : α → ObjectOrReference α
  | Ref : String → ObjectOrReference α
  deriving DecidableEq, Repr

/-- Modelled from the spec: one media type entry of a request body, holding
an optional schema that may itself be a reference. -/
structure MediaType where
  media_schema : Option (ObjectOrReference Schema) := none
  deriving DecidableEq, Repr

/-- Modelled from the spec: a request body with a map from media-type name
to media type entry (association list keeps the map executable). -/
structure RequestBody where
  content : List (String × MediaType) := []
  deriving DecidableEq, Repr

/-- Modelled from the spec: one documented operation; the request pane only
reads its optional request body. -/
structure Operation where
  request_body : Option (ObjectOrReference RequestBody) := none
  deriving DecidableEq, Repr

/-- Modelled from the spec: the immutable specification document with its
reusable components, against which references resolve. -/
structure Spec where
  request_bodies : List (String × RequestBody) := []
  schemas : List (String × Schema) := []
  deriving DecidableEq, Repr

/-- Modelled from the spec: the Shared Navigation State, holding the loaded
document and the currently selected (path, method, operation) pointer. -/
structure State where
  openapi_spec : Spec
  active : Option (String × String × Operation)
  deriving DecidableEq, Repr

/-- Modelled from the spec: accessor returning the currently selected
operation, if any. -/
def State.active_operation (st : State) : Option (String × String × Operation) :=
  st.active

/-- Error kinds of the fallible pipeline steps (spec section 7): reference
resolution, missing schema, serialization, highlighting. -/
inductive Err where
  | ReferenceResolutionError : String → Err
  | SchemaMissing : Err
  | SerializationError : Err
  | HighlightError : Err
  deriving DecidableEq, Repr

/-- First-match lookup in an association list, modelling map access. -/
def lookupKey {α : Type} : List (String × α) → String → Option α
  | [], _ => none
  | (k, v) :: rest, key => if k = key then some v else lookupKey rest key

/-- Modelled from the spec: resolve a request-body value that may be a
reference; resolution fails explicitly when the target is absent. -/
def resolveRequestBody : ObjectOrReference RequestBody → Spec → Except Err RequestBody
  | .Object o, _ => .ok o
  | .Ref r, spec =>
    match lookupKey spec.request_bodies r with
    | some rb => .ok rb
    | none => .error (.ReferenceResolutionError r)

/-- Modelled from the spec: resolve a schema value that may be a reference;
resolution fails explicitly when the target is absent. -/
def resolveSchemaRef : ObjectOrReference Schema → Spec → Except Err Schema
  | .Object o, _ => .ok o
  | .Ref r, spec =>
    match lookupKey spec.schemas r with
    | some s => .ok s
    | none => .error (.ReferenceResolutionError r)

/-- Modelled from the spec: the schema accessor of a media type entry,
resolving the stored schema reference against the document and failing when
no schema is present. -/
def mediaTypeSchema (mt : MediaType) (spec : Spec) : Except Err Schema :=
  match mt.media_schema with
  | none => .error .SchemaMissing
  | some oor => resolveSchemaRef oor spec

/-- Modelled from the spec: the Action message set routed through the update
loop; Tick stands in for the remaining variants that the request pane
ignores in its wildcard arm. -/
inductive Action where
  | Up
  | Down
  | Submit
  | Update
  | Tick
  deriving DecidableEq, Repr

/-- Modelled from the spec: an opaque key press event. -/
structure KeyEvent where
  code : Nat := 0
  deriving DecidableEq, Repr

/-- Modelled from the spec: an opaque mouse event. -/
structure MouseEvent where
  kind : Nat := 0
  deriving DecidableEq, Repr

/-- Modelled from the spec: the event response wrapper that key and mouse
handlers may return around an Action. -/
inductive EventResponse (α : Type) where
  | Continue : α → EventResponse α
  | Stop : α → EventResponse α
  deriving DecidableEq, Repr

/-- Models the external serialization and highlighting collaborators used by
the pane: serde_yaml serialization of a schema to text, and the syntect
highlighter composed with the syntect-to-ratatui style translation, one line
at a time. Both are fallible in their Rust signatures, so both return
Except here; theorems quantify over this record. -/
structure Highlighter where
  serialize : Schema → Except Err String
  highlightLine : String → Except Err (List (Style × String))

/-- Embeds the RequestPane struct of src/panes/request.rs. The shared state
handle and the loaded syntax and theme sets are not stored here: the state
is passed explicitly to each operation, and the highlighting machinery is
passed as a Highlighter record. -/
structure RequestPane where
  focused : Bool
  focused_border_style : Style
  request_body : Option RequestBody
  request_schema : Option Schema
  request_schema_line_offset : Nat
  request_schema_styles : List (List (Style × String))
  deriving DecidableEq, Repr

/-- The usize modulus of the 64-bit target. -/
def USIZE : Nat := 2 ^ 64

/-- Rust usize saturating_add(1). -/
def satAdd1 (n : Nat) : Nat := min (n + 1) (USIZE - 1)

/-- Rust usize subtraction of one as deployed in release builds: wrapping.
On input 0 a debug build panics instead; the wrap captures the release
behavior of the expression len() - 1 in the Down arm of update. -/
def wrapSub1 (n : Nat) : Nat := if n = 0 then USIZE - 1 else n - 1

/-- Pads a decimal rendering on the right with spaces to at least width 3,
embedding the Rust format of the gutter number. -/
def padTo3 (s : String) : String := s ++ String.mk (List.replicate (3 - s.length) ' ')

/-- The gutter fragment inserted at position 0 of each highlighted line:
a dimmed style and the text produced by the gutter format, one leading and
one trailing space around the padded 1-based line number. -/
def gutterFrag (lineNum : Nat) : Style × String :=
  ({ dim := true }, " " ++ padTo3 (toString lineNum) ++ " ")

/-- The per-segment style fix-up applied to each highlighted segment:
underline color and background are forced to the Reset color. -/
def translateSeg (seg : Style × String) : Style × String :=
  ({ seg.1 with underlineColor := some Color.Reset, bg := some Color.Reset }, seg.2)

/-- Models LinesWithEndings of syntect: splits a string into lines, each
keeping its trailing newline; a final fragment without a newline is kept
when non-empty. -/
def splitLinesAux : List Char → List Char → List String
  | [], [] => []
  | [], acc => [String.mk acc.reverse]
  | c :: cs, acc =>
    if c = '\n' then String.mk (acc.reverse ++ [c]) :: splitLinesAux cs []
    else splitLinesAux cs (c :: acc)

/-- Line splitting of a whole string, keeping line endings. -/
def linesWithEndings (s : String) : List String := splitLinesAux s.data []

/-- The highlighting loop of set_request_schema_styles: for each line in
order, highlight it, translate the segment styles, insert the gutter
fragment in front, and push the line onto the accumulated cache; an error
stops the loop and keeps the lines pushed so far, exactly as the early
return of the Rust loop leaves the partially pushed vector in place. -/
def hlLoop (H : Highlighter) :
    List String → Nat → List (List (Style × String)) →
      List (List (Style × String)) × Except Err Unit
  | [], _, acc => (acc, .ok ())
  | line :: rest, line_num, acc =>
    match H.highlightLine line with
    | .error e => (acc, .error e)
    | .ok segs =>
      hlLoop H rest (line_num + 1)
        (acc ++ [gutterFrag (line_num + 1) :: segs.map translateSeg])

/-- Embeds RequestPane::set_request_schema_styles: when a schema is stored,
serialize it to text, highlight it line by line and append the styled lines
(with gutter fragments) to the current cache; with no stored schema this is
a no-op that succeeds. -/
def RequestPane.set_request_schema_styles (H : Highlighter) (p : RequestPane) :
    RequestPane × Except Err Unit :=
  match p.request_schema with
  | none => (p, .ok ())
  | some request_schema =>
    match H.serialize request_schema with
    | .error e => (p, .error e)
    | .ok yaml_schema =>
      let r := hlLoop H (linesWithEndings yaml_schema) 0 p.request_schema_styles
      ({ p with request_schema_styles := r.1 }, r.2)

/-- Embeds RequestPane::init_request_schema: clear the request body, the
style cache and the cursor; then, when an operation is selected and has a
request body, resolve it (propagating resolution errors), store the
application/json schema when present, store the resolved body, and finally
rebuild the style cache from the stored schema. The returned pane reflects
all mutations performed before an error, matching the mutation of self in
the Rust method. -/
def RequestPane.init_request_schema (H : Highlighter) (st : State) (p : RequestPane) :
    RequestPane × Except Err Unit :=
  let p := { p with request_body := none, request_schema_styles := [],
                    request_schema_line_offset := 0 }
  match st.active_operation with
  | some (_path, _method, operation) =>
    match operation.request_body with
    | some oor =>
      match resolveRequestBody oor st.openapi_spec with
      | .error e => (p, .error e)
      | .ok resolved_oor =>
        match lookupKey resolved_oor.content "application/json" with
        | some req_content =>
          match mediaTypeSchema req_content st.openapi_spec with
          | .error e => (p, .error e)
          | .ok request_schema =>
            RequestPane.set_request_schema_styles H
              { p with request_schema := some request_schema,
                       request_body := some resolved_oor }
        | none =>
          RequestPane.set_request_schema_styles H
            { p with request_body := some resolved_oor }
    | none => RequestPane.set_request_schema_styles H p
  | none => RequestPane.set_request_schema_styles H p

/-- Embeds RequestPane::update: Update rebuilds the schema cache, Down and
Up move the scroll cursor with the exact usize arithmetic of the source
(saturating add, then min against len() - 1 computed with wrapping
subtraction), Submit and all other actions do nothing; on success the
method always returns Ok(None). The returned pane reflects the mutations of
self even when an error is returned. -/
def RequestPane.update (H : Highlighter) (st : State) (action : Action) (p : RequestPane) :
    RequestPane × Except Err (Option Action) :=
  match action with
  | .Update =>
    match RequestPane.init_request_schema H st p with
    | (p1, .error e) => (p1, .error e)
    | (p1, .ok _) => (p1, .ok none)
  | .Down =>
    let offset := min (satAdd1 p.request_schema_line_offset)
      (wrapSub1 p.request_schema_styles.length)
    ({ p with request_schema_line_offset := offset }, .ok none)
  | .Up =>
    ({ p with request_schema_line_offset := p.request_schema_line_offset - 1 }, .ok none)
  | .Submit => (p, .ok none)
  | _ => (p, .ok none)

/-- Embeds RequestPane::handle_key_events: always Ok(None), no mutation. -/
def RequestPane.handle_key_events (_key : KeyEvent) (p : RequestPane) :
    RequestPane × Except Err (Option (EventResponse Action)) :=
  (p, .ok none)

/-- Embeds RequestPane::handle_mouse_events: always Ok(None), no mutation. -/
def RequestPane.handle_mouse_events (_mouse : MouseEvent) (p : RequestPane) :
    RequestPane × Except Err (Option (EventResponse Action)) :=
  (p, .ok none)

/-- Embeds RequestPane::focus. -/
def RequestPane.focus (p : RequestPane) : RequestPane × Except Err Unit :=
  ({ p with focused := true }, .ok ())

/-- Embeds RequestPane::unfocus. -/
def RequestPane.unfocus (p : RequestPane) : RequestPane × Except Err Unit :=
  ({ p with focused := false }, .ok ())

/-- Embeds the ratatui border type distinction used by the pane. -/
inductive BorderType where
  | Thick
  | Plain
  deriving DecidableEq, Repr

/-- Embeds RequestPane::border_style. -/
def RequestPane.border_style (p : RequestPane) : Style :=
  match p.focused with
  | true => p.focused_border_style
  | false => {}

/-- Embeds RequestPane::border_type. -/
def RequestPane.border_type (p : RequestPane) : BorderType :=
  match p.focused with
  | true => .Thick
  | false => .Plain

/-- The reset applied at the start of init_request_schema: request body,
style cache and cursor are cleared; the stored schema is kept. -/
def resetPane (p : RequestPane) : RequestPane :=
  { p with request_body := none, request_schema_styles := [],
           request_schema_line_offset := 0 }

/-- Keeps the old stored schema unless the rebuild found a new one. -/
def mergeSchema (so : Option Schema) (old : Option Schema) : Option Schema :=
  match so with
  | some s => some s
  | none => old

/-- The resolution phase of init_request_schema, everything before the
style rebuild: yields the request body and schema to store, or the error of
the failing resolution step. Pure function of the navigation state. -/
def resolvePhase (st : State) : Except Err (Option RequestBody × Option Schema) :=
  match st.active_operation with
  | none => .ok (none, none)
  | some (_path, _method, operation) =>
    match operation.request_body with
    | none => .ok (none, none)
    | some oor =>
      match resolveRequestBody oor st.openapi_spec with
      | .error e => .error e
      | .ok resolved =>
        match lookupKey resolved.content "application/json" with
        | none => .ok (some resolved, none)
        | some req_content =>
          match mediaTypeSchema req_content st.openapi_spec with
          | .error e => .error e
          | .ok sch => .ok (some resolved, some sch)

/-- The style rebuild as a function of the stored schema and the current
cache contents. -/
def buildResult (H : Highlighter) (os : Option Schema)
    (acc : List (List (Style × String))) :
    List (List (Style × String)) × Except Err Unit :=
  match os with
  | none => (acc, .ok ())
  | some sch =>
    match H.serialize sch with
    | .error e => (acc, .error e)
    | .ok yaml => hlLoop H (linesWithEndings yaml) 0 acc

/-- Closed form of update on the Update action: resolution phase first, then
the style rebuild against the merged schema, starting from the cleared
cache. -/
def updateModel (H : Highlighter) (st : State) (p : RequestPane) :
    RequestPane × Except Err (Option Action) :=
  match resolvePhase st with
  | .error e => (resetPane p, .error e)
  | .ok (b, so) =>
    let sch := mergeSchema so p.request_schema
    let r := buildResult H sch []
    ({ resetPane p with request_body := b, request_schema := sch,
                        request_schema_styles := r.1 },
     match r.2 with
     | .ok _ => .ok none
     | .error e => .error e)

/-- Folds a sequence of actions over a pane, keeping the pane component. -/
def applyActions (H : Highlighter) (st : State) (acts : List Action) (p : RequestPane) :
    RequestPane :=
  acts.foldl (fun q a => (RequestPane.update H st a q).1) p

/-- A concrete schema used in scenario inputs. -/
def sampleSchema : Schema := { schema_type := some "object", title := some "Pet" }

/-- A concrete media type entry carrying the sample schema inline. -/
def sampleMediaType : MediaType := { media_schema := some (.Object sampleSchema) }

/-- A concrete request body exposing an application/json entry. -/
def sampleRequestBody : RequestBody := { content := [("application/json", sampleMediaType)] }

/-- A concrete operation with an inline request body. -/
def sampleOperation : Operation := { request_body := some (.Object sampleRequestBody) }

/-- A concrete document with no reusable components, so any reference into
it fails to resolve. -/
def sampleSpec : Spec := { request_bodies := [], schemas := [] }

/-- Navigation state with a selected operation carrying a JSON schema. -/
def stGood : State := { openapi_spec := sampleSpec, active := some ("/pets", "get", sampleOperation) }

/-- Navigation state with no selected operation. -/
def stNone : State := { openapi_spec := sampleSpec, active := none }

/-- Navigation state whose selected operation references a request body
component that the document does not define. -/
def stBrokenRef : State :=
  { openapi_spec := sampleSpec,
    active := some ("/pets", "get",
      { request_body := some (.Ref "#/components/requestBodies/Missing") }) }

/-- A total highlighting environment: serialization yields one line of
text and highlighting returns the line as a single default-styled
segment. -/
def Hok : Highlighter :=
  { serialize := fun _ => .ok "type: object\n",
    highlightLine := fun line => .ok [({}, line)] }

/-- A highlighting environment whose line highlighter fails, exercising the
fallible arm of the styling loop. -/
def Hboom : Highlighter :=
  { serialize := fun _ => .ok "type: object\n",
    highlightLine := fun _ => .error Err.HighlightError }

/-- A freshly constructed pane, as RequestPane::new leaves it. -/
def panEmpty : RequestPane :=
  { focused := false, focused_border_style := {}, request_body := none,
    request_schema := none, request_schema_line_offset := 0,
    request_schema_styles := [] }

/-- A pane that retains a schema stored by an earlier selection. -/
def panWithSchema : RequestPane := { panEmpty with request_schema := some sampleSchema }

/-- A pane whose cache still holds a line from an earlier rebuild. -/
def panWithCache : RequestPane :=
  { panEmpty with request_schema_styles := [[({}, "old line")]] }

/-- A pane whose cache holds three lines, cursor at the top. -/
def panThreeLines : RequestPane :=
  { panEmpty with request_schema_styles := [[({}, "a")], [({}, "b")], [({}, "c")]] }

theorem set_request_schema_styles_eq (H : Highlighter) (p : RequestPane) :
    RequestPane.set_request_schema_styles H p =
      ({ p with request_schema_styles :=
            (buildResult H p.request_schema p.request_schema_styles).1 },
       (buildResult H p.request_schema p.request_schema_styles).2) := by
  obtain ⟨f, fb, rb, rs, off, sty⟩ := p
  cases rs with
  | none => rfl
  | some sch =>
    simp only [RequestPane.set_request_schema_styles, buildResult]
    rcases hh : H.serialize sch with e | yaml <;> simp [hh]

theorem init_request_schema_eq (H : Highlighter) (st : State) (p : RequestPane) :
    RequestPane.init_request_schema H st p =
      (match resolvePhase st with
       | .error e => (resetPane p, .error e)
       | .ok (b, so) =>
         RequestPane.set_request_schema_styles H
           { resetPane p with request_body := b,
                              request_schema := mergeSchema so p.request_schema }) := by
  obtain ⟨spec, act⟩ := st
  obtain ⟨f, fb, rb, rs, off, sty⟩ := p
  rcases act with _ | ⟨pa, me, op⟩
  · rfl
  · obtain ⟨orb⟩ := op
    rcases orb with _ | oor
    · rfl
    · rcases hr : resolveRequestBody oor spec with e | resolved
      · simp [RequestPane.init_request_schema, resolvePhase, State.active_operation,
              resetPane, mergeSchema, hr]
      · rcases hc : lookupKey resolved.content "application/json" with _ | mt
        · simp [RequestPane.init_request_schema, resolvePhase, State.active_operation,
                resetPane, mergeSchema, hr, hc]
        · rcases hs : mediaTypeSchema mt spec with e | sch
          all_goals simp [RequestPane.init_request_schema, resolvePhase,
            State.active_operation, resetPane, mergeSchema, hr, hc, hs]

theorem update_Update_eq (H : Highlighter) (st : State) (p : RequestPane) :
    RequestPane.update H st .Update p = updateModel H st p := by
  simp only [RequestPane.update, init_request_schema_eq, updateModel]
  obtain ⟨f, fb, rb, rs, off, sty⟩ := p
  rcases hph : resolvePhase st with e | ⟨b, so⟩
  · rfl
  · rcases hB : buildResult H (mergeSchema so rs) [] with ⟨S, r⟩
    cases r <;> simp [set_request_schema_styles_eq, hB, resetPane]

theorem hlLoop_acc (H : Highlighter) :
    ∀ (lines : List String) (n : Nat) (acc : List (List (Style × String))),
      hlLoop H lines n acc =
        (acc ++ (hlLoop H lines n []).1, (hlLoop H lines n []).2) := by
  intro lines
  induction lines with
  | nil => intro n acc; simp [hlLoop]
  | cons line rest ih =>
    intro n acc
    simp only [hlLoop]
    rcases hh : H.highlightLine line with e | segs
    · simp
    · dsimp only
      rw [ih (n + 1) (acc ++ [gutterFrag (n + 1) :: segs.map translateSeg]),
          ih (n + 1) ([] ++ [gutterFrag (n + 1) :: segs.map translateSeg])]
      simp

theorem hlLoop_get (H : Highlighter) :
    ∀ (lines : List String) (n k : Nat) (l : List (Style × String)),
      (hlLoop H lines n []).1.get? k = some l →
        l.head? = some (gutterFrag (n + 1 + k)) := by
  intro lines
  induction lines with
  | nil => intro n k l h; simp [hlLoop] at h
  | cons line rest ih =>
    intro n k l h
    simp only [hlLoop] at h
    rcases hh : H.highlightLine line with e | segs <;> rw [hh] at h <;> dsimp only at h
    · simp at h
    · rw [hlLoop_acc, List.nil_append] at h
      cases k with
      | zero =>
        rw [List.singleton_append, List.get?_cons_zero] at h
        injection h with h1
        rw [h1.symm]
        simp
      | succ k0 =>
        rw [List.singleton_append, List.get?_cons_succ] at h
        have h2 := ih (n + 1) k0 l h
        have h3 : n + 1 + 1 + k0 = n + 1 + (k0 + 1) := by omega
        rw [h3] at h2
        exact h2

/-- C1, counterexample: with a pane whose cache holds a line and a
navigation state whose operation references a missing request-body
component, the Update action returns the ReferenceResolutionError but the
cache is not what it was before the dispatch: it has been cleared. This
refutes the claim that no cache replacement occurs on a resolution
failure. -/
theorem c1_counterexample :
    (RequestPane.update Hok stBrokenRef .Update panWithCache).2 =
      .error (Err.ReferenceResolutionError "#/components/requestBodies/Missing") ∧
    (RequestPane.update Hok stBrokenRef .Update panWithCache).1.request_schema_styles ≠
      panWithCache.request_schema_styles := by
  constructor
  · rfl
  · decide

/-- C1, amended: if, while an operation is selected, the request-body
reference of the operation fails to resolve against the document, then
update on the Update action returns that error, and the pane is left with
the render cache cleared to empty (the clearing happens before the fallible
resolution), the request body cleared and the cursor reset; the previously
stored schema is retained but no cache replacement with rebuilt content
occurs. -/
theorem c1_update_resolution_error_clears_cache (H : Highlighter) (st : State)
    (p : RequestPane) (pa me : String) (op : Operation)
    (oor : ObjectOrReference RequestBody) (e : Err)
    (hop : st.active_operation = some (pa, me, op))
    (hrb : op.request_body = some oor)
    (hres : resolveRequestBody oor st.openapi_spec = .error e) :
    RequestPane.update H st .Update p =
      ({ p with request_body := none, request_schema_styles := [],
                request_schema_line_offset := 0 }, .error e) := by
  rw [update_Update_eq]
  unfold updateModel resolvePhase
  simp only [hop, hrb, hres]
  rfl

/-- C1, witness: the amended statement evaluated on the broken-reference
scenario. -/
theorem c1_witness :
    RequestPane.update Hok stBrokenRef .Update panWithCache =
      ({ panWithCache with request_body := none, request_schema_styles := [],
                           request_schema_line_offset := 0 },
       .error (Err.ReferenceResolutionError "#/components/requestBodies/Missing")) :=
  c1_update_resolution_error_clears_cache Hok stBrokenRef panWithCache
    "/pets" "get" { request_body := some (.Ref "#/components/requestBodies/Missing") }
    (.Ref "#/components/requestBodies/Missing") _ rfl rfl rfl

/-- C2, counterexample: two panes processing Update under the same
navigation state (no operation selected) and the same highlighting
environment end with different render caches, because one pane retains a
schema stored by an older navigation state and the rebuild runs against it.
This refutes the claim that the cache after Update is a pure function of
the navigation state snapshot alone. -/
theorem c2_counterexample :
    (RequestPane.update Hok stNone .Update panEmpty).1.request_schema_styles ≠
      (RequestPane.update Hok stNone .Update panWithSchema).1.request_schema_styles := by
  decide

/-- C2, amended: the render cache after Update is a pure function of the
navigation state snapshot together with the schema the pane has retained
from earlier selections: two panes with equal retained schemas, updated
under the same navigation state and highlighting environment, end with
identical caches regardless of any other difference in their histories. -/
theorem c2_cache_function_of_state_and_retained_schema
    (H : Highlighter) (st : State) (p q : RequestPane)
    (h : p.request_schema = q.request_schema) :
    (RequestPane.update H st .Update p).1.request_schema_styles =
      (RequestPane.update H st .Update q).1.request_schema_styles := by
  simp only [update_Update_eq]
  unfold updateModel
  rcases hph : resolvePhase st with e | ⟨b, so⟩
  · rfl
  · dsimp only
    rw [h]

/-- C2, witness: two panes with equal (empty) retained schemas but
different caches and bodies agree after Update. -/
theorem c2_witness :
    (RequestPane.update Hok stNone .Update panWithCache).1.request_schema_styles =
      (RequestPane.update Hok stNone .Update panEmpty).1.request_schema_styles :=
  c2_cache_function_of_state_and_retained_schema Hok stNone panWithCache panEmpty rfl

/-- C3, code evaluated at the failing input: on a pane whose render cache
is empty, the Down action does not leave the cursor at 0; the source
computes len() - 1 on the empty cache, which wraps in release builds, so
the min clamp is ineffective and the cursor becomes 1. The claim says the
cursor remains 0 on an empty cache. -/
theorem c3_down_on_empty_cache_increments :
    panEmpty.request_schema_styles.length = 0 ∧
    (RequestPane.update Hok stNone .Down panEmpty).1.request_schema_line_offset = 1 := by
  constructor
  · rfl
  · decide

/-- C4, counterexample: update is not idempotent for every Action. On a
pane with a three-line cache and cursor 0, dispatching Down once moves the
cursor to 1 but dispatching it twice moves it to 2, so the pane state after
two invocations differs from the state after one. -/
theorem c4_counterexample :
    (RequestPane.update Hok stNone .Down
        (RequestPane.update Hok stNone .Down panThreeLines).1).1 ≠
      (RequestPane.update Hok stNone .Down panThreeLines).1 := by
  decide

/-- C4, amended: update is idempotent for every Action other than the
scroll actions Up and Down: invoking it twice with the same such Action
while the navigation state is unchanged yields the same pane state and the
same result as invoking it once; the scroll actions move the cursor one
step per invocation and are only idempotent at a boundary. -/
theorem c4_update_idempotent_except_scroll (H : Highlighter) (st : State)
    (a : Action) (p : RequestPane) (h1 : a ≠ Action.Up) (h2 : a ≠ Action.Down) :
    RequestPane.update H st a (RequestPane.update H st a p).1 =
      RequestPane.update H st a p := by
  cases a with
  | Up => exact absurd rfl h1
  | Down => exact absurd rfl h2
  | Submit => rfl
  | Tick => rfl
  | Update =>
    simp only [update_Update_eq]
    unfold updateModel
    obtain ⟨f, fb, rb, rs, off, sty⟩ := p
    rcases hph : resolvePhase st with e | ⟨b, so⟩
    · rfl
    · cases so with
      | none => rfl
      | some sch => rfl

/-- C4, witness: the amended statement evaluated on the Update action with
the stale-schema pane under the empty selection. -/
theorem c4_witness :
    RequestPane.update Hok stNone .Update
        (RequestPane.update Hok stNone .Update panWithSchema).1 =
      RequestPane.update Hok stNone .Update panWithSchema :=
  c4_update_idempotent_except_scroll Hok stNone .Update panWithSchema
    (by decide) (by decide)

/-- C5, code evaluated at the failing input: applying the sequence
[Down, Down] to a pane whose cache length L is 0 leaves the cursor at 2,
violating the claimed invariant that the cursor is 0 whenever L is 0; the
underflowing len() - 1 in the Down arm makes the clamp ineffective on an
empty cache. -/
theorem c5_cursor_bound_violated_on_empty_cache :
    (applyActions Hok stNone [.Down, .Down] panEmpty).request_schema_styles.length = 0 ∧
    (applyActions Hok stNone [.Down, .Down] panEmpty).request_schema_line_offset = 2 := by
  constructor
  · rfl
  · decide

/-- C6, counterexample: with no operation selected, Update on a pane that
retains a schema from an earlier selection succeeds but leaves a non-empty
render cache, rebuilt from the retained schema. This refutes the claim that
an empty selection always yields an empty cache. -/
theorem c6_counterexample :
    stNone.active_operation = none ∧
    (RequestPane.update Hok stNone .Update panWithSchema).2 = .ok none ∧
    (RequestPane.update Hok stNone .Update panWithSchema).1.request_schema_styles ≠ [] := by
  refine ⟨rfl, rfl, ?_⟩
  decide

/-- C6, amended: if the navigation state has no operation selected and the
pane holds no previously stored request schema, then Update succeeds,
returns no follow-up action and leaves the pane with an empty render cache,
no request body and cursor 0; a schema retained from an earlier selection is
instead re-rendered into the cache. -/
theorem c6_empty_selection_fresh_pane_empty_cache (H : Highlighter) (st : State)
    (p : RequestPane) (hop : st.active_operation = none)
    (hsch : p.request_schema = none) :
    RequestPane.update H st .Update p =
      ({ p with request_body := none, request_schema_styles := [],
                request_schema_line_offset := 0 }, .ok none) := by
  rw [update_Update_eq]
  unfold updateModel resolvePhase
  simp only [hop]
  rw [show mergeSchema none p.request_schema = p.request_schema from rfl, hsch]
  rfl

/-- C6, witness: the amended statement evaluated on a fresh pane under the
empty selection. -/
theorem c6_witness :
    RequestPane.update Hok stNone .Update panEmpty =
      ({ panEmpty with request_body := none, request_schema_styles := [],
                       request_schema_line_offset := 0 }, .ok none) :=
  c6_empty_selection_fresh_pane_empty_cache Hok stNone panEmpty rfl rfl

/-- C7, confirmed: whenever Update succeeds, every line k (0-based) of the
resulting render cache has as its first (style, text) fragment the dimmed
gutter fragment holding the 1-based line number k + 1, for every navigation
state, pane and highlighting environment. -/
theorem c7_gutter_line_numbers (H : Highlighter) (st : State) (p p1 : RequestPane)
    (r : Option Action) (h : RequestPane.update H st .Update p = (p1, .ok r))
    (k : Nat) (l : List (Style × String))
    (hk : p1.request_schema_styles.get? k = some l) :
    l.head? = some (gutterFrag (k + 1)) := by
  rw [update_Update_eq] at h
  unfold updateModel at h
  rcases hph : resolvePhase st with e | ⟨b, so⟩ <;> rw [hph] at h <;> dsimp only at h
  · simp at h
  · injection h with hp hr2
    subst hp
    dsimp only at hk
    rcases hms : mergeSchema so p.request_schema with _ | sch <;> rw [hms] at hk
    · simp [buildResult] at hk
    · simp only [buildResult] at hk
      rcases hs : H.serialize sch with e2 | yaml <;> rw [hs] at hk <;> dsimp only at hk
      · simp at hk
      · have h2 := hlLoop_get H (linesWithEndings yaml) 0 k l hk
        have h3 : 0 + 1 + k = k + 1 := by omega
        rw [h3] at h2
        exact h2

/-- C7, witness: the concrete JSON-schema scenario produces a one-line
cache whose line 0 starts with the gutter fragment for line number 1. -/
theorem c7_witness :
    (RequestPane.update Hok stGood .Update panEmpty).1.request_schema_styles.get? 0 =
      some [gutterFrag 1, translateSeg ({}, "type: object\n")] ∧
    ([gutterFrag 1, translateSeg ({}, "type: object\n")] :
        List (Style × String)).head? = some (gutterFrag 1) :=
  ⟨rfl,
   c7_gutter_line_numbers Hok stGood panEmpty
     (RequestPane.update Hok stGood .Update panEmpty).1 none rfl 0
     [gutterFrag 1, translateSeg ({}, "type: object\n")] rfl⟩

/-- C8, confirmed: no action resets the stored request schema to none once
set; Update leaves the cursor at 0 and only overwrites the stored schema
when the resolution phase finds an application/json schema; when it finds
none (no operation, no request body, or no application/json content), the
previously stored schema persists, the resolved body (or none) is stored,
and the cache rebuild runs against the retained schema starting from the
cleared cache. -/
theorem c8_schema_retention (H : Highlighter) (st : State) (a : Action) (p : RequestPane) :
    (p.request_schema.isSome → ((RequestPane.update H st a p).1.request_schema).isSome) ∧
    (∀ b, resolvePhase st = .ok (b, none) →
      (RequestPane.update H st .Update p).1.request_schema = p.request_schema ∧
      (RequestPane.update H st .Update p).1.request_body = b ∧
      (RequestPane.update H st .Update p).1.request_schema_styles =
        (buildResult H p.request_schema []).1) ∧
    (∀ b sch, resolvePhase st = .ok (b, some sch) →
      (RequestPane.update H st .Update p).1.request_schema = some sch) ∧
    (RequestPane.update H st .Update p).1.request_schema_line_offset = 0 := by
  refine ⟨?_, ?_, ?_, ?_⟩
  · intro hs
    cases a with
    | Update =>
      rw [update_Update_eq]
      unfold updateModel
      rcases hph : resolvePhase st with e | ⟨b, so⟩
      · exact hs
      · cases so with
        | none => exact hs
        | some sch => rfl
    | Up => exact hs
    | Down => exact hs
    | Submit => exact hs
    | Tick => exact hs
  · intro b hph
    rw [update_Update_eq]
    unfold updateModel
    rw [hph]
    exact ⟨rfl, rfl, rfl⟩
  · intro b sch hph
    rw [update_Update_eq]
    unfold updateModel
    rw [hph]
    rfl
  · rw [update_Update_eq]
    unfold updateModel
    rcases hph : resolvePhase st with e | ⟨b, so⟩
    · rfl
    · rfl

/-- C8, witness: under the empty selection, the retention conjunct applied
to a pane that stores a schema. -/
theorem c8_witness :
    (RequestPane.update Hok stNone .Update panWithSchema).1.request_schema =
      panWithSchema.request_schema ∧
    (RequestPane.update Hok stNone .Update panWithSchema).1.request_body = none ∧
    (RequestPane.update Hok stNone .Update panWithSchema).1.request_schema_styles =
      (buildResult Hok panWithSchema.request_schema []).1 :=
  (c8_schema_retention Hok stNone .Update panWithSchema).2.1 none rfl

/-- C9, counterexample: when the error arises in the highlighting step
rather than in resolution, update(Update) returns the error but the request
body has already been set to the resolved body, refuting the claim that an
erroring update always leaves request_body equal to none. -/
theorem c9_counterexample :
    (RequestPane.update Hboom stGood .Update panEmpty).2 = .error Err.HighlightError ∧
    (RequestPane.update Hboom stGood .Update panEmpty).1.request_body =
      some sampleRequestBody :=
  ⟨rfl, rfl⟩

/-- C9, amended: whenever update(Update) returns an error raised before the
style rebuild (reference resolution or schema lookup), the pane is left
with request_body none, an empty render cache and cursor 0, because those
fields are reset before the resolution phase runs; an error raised later,
in serialization or highlighting, instead leaves the resolved body stored
and may leave partially rebuilt style lines. -/
theorem c9_pre_style_error_resets_pane (H : Highlighter) (st : State)
    (p : RequestPane) (e : Err) (hph : resolvePhase st = .error e) :
    RequestPane.update H st .Update p =
      ({ p with request_body := none, request_schema_styles := [],
                request_schema_line_offset := 0 }, .error e) := by
  rw [update_Update_eq]
  unfold updateModel
  rw [hph]
  rfl

/-- C9, witness: the amended statement evaluated on the broken-reference
scenario with a pane holding a three-line cache. -/
theorem c9_witness :
    RequestPane.update Hok stBrokenRef .Update panThreeLines =
      ({ panThreeLines with request_body := none, request_schema_styles := [],
                            request_schema_line_offset := 0 },
       .error (Err.ReferenceResolutionError "#/components/requestBodies/Missing")) :=
  c9_pre_style_error_resets_pane Hok stBrokenRef panThreeLines _ rfl

/-- C10, confirmed: for every action, update either fails or returns
Ok(None), never a follow-up action; and the key and mouse handlers always
return Ok(None) and leave the pane unchanged. -/
theorem c10_no_follow_up_action (H : Highlighter) (st : State) (a : Action)
    (p : RequestPane) (k : KeyEvent) (m : MouseEvent) :
    ((RequestPane.update H st a p).2 = .ok none ∨
      ∃ e, (RequestPane.update H st a p).2 = .error e) ∧
    RequestPane.handle_key_events k p = (p, .ok none) ∧
    RequestPane.handle_mouse_events m p = (p, .ok none) := by
  refine ⟨?_, rfl, rfl⟩
  cases a with
  | Update =>
    rw [update_Update_eq]
    unfold updateModel
    rcases hph : resolvePhase st with e | ⟨b, so⟩
    · exact Or.inr ⟨e, rfl⟩
    · rcases hr : (buildResult H (mergeSchema so p.request_schema) []).2 with e2 | u
      · exact Or.inr ⟨e2, by dsimp only; rw [hr]⟩
      · exact Or.inl (by dsimp only; rw [hr])
  | Up => exact Or.inl rfl
  | Down => exact Or.inl rfl
  | Submit => exact Or.inl rfl
  | Tick => exact Or.inl rfl

end OpenapiTui
